import Mathlib

/-
Verification of the weather-report batch pipeline: a shallow embedding of
weather_report/weather_service.py and weather_report/report.py, with Python
floats modelled as exact rationals, Python ints as Int, fallible Python code
as Except over an explicit exception type, and the single outbound HTTP call
modelled as an oracle from the constructed request to a response, together
with the list of requests issued.
-/

set_option linter.unusedVariables false

namespace WeatherReport

/-- Closed enumeration of weather conditions, mirroring the WeatherCondition
enum of weather_service.py. -/
inductive WeatherCondition where
  | clear
  | partlyCloudy
  | overcast
  | fog
  | drizzle
  | rain
  | snow
  | thunderstorm
  | unknown
  deriving DecidableEq, Repr

/-- The fixed forecast endpoint, OPEN_METEO_BASE_URL in weather_service.py. -/
def OPEN_METEO_BASE_URL : String := "https://api.open-meteo.com/v1/forecast"

/-- REQUEST_TIMEOUT = 10 in weather_service.py. -/
def REQUEST_TIMEOUT : Nat := 10

/-- The WMO_CODE_MAP dict of weather_service.py, as an association list in
the same order. -/
def WMO_CODE_MAP : List (Int × WeatherCondition) :=
  [(0, WeatherCondition.clear),
   (1, WeatherCondition.clear),
   (2, WeatherCondition.partlyCloudy),
   (3, WeatherCondition.overcast),
   (45, WeatherCondition.fog),
   (48, WeatherCondition.fog),
   (51, WeatherCondition.drizzle),
   (53, WeatherCondition.drizzle),
   (55, WeatherCondition.drizzle),
   (56, WeatherCondition.drizzle),
   (57, WeatherCondition.drizzle),
   (61, WeatherCondition.rain),
   (63, WeatherCondition.rain),
   (65, WeatherCondition.rain),
   (66, WeatherCondition.rain),
   (67, WeatherCondition.rain),
   (71, WeatherCondition.snow),
   (73, WeatherCondition.snow),
   (75, WeatherCondition.snow),
   (77, WeatherCondition.snow),
   (80, WeatherCondition.rain),
   (81, WeatherCondition.rain),
   (82, WeatherCondition.rain),
   (85, WeatherCondition.snow),
   (86, WeatherCondition.snow),
   (95, WeatherCondition.thunderstorm),
   (96, WeatherCondition.thunderstorm),
   (99, WeatherCondition.thunderstorm)]

/-- interpret_weather_code of weather_service.py: WMO_CODE_MAP.get with
default UNKNOWN. -/
def interpret_weather_code (code : Int) : WeatherCondition :=
  (WMO_CODE_MAP.lookup code).getD WeatherCondition.unknown

/-- celsius_to_fahrenheit of weather_service.py. -/
def celsius_to_fahrenheit (celsius : Rat) : Rat :=
  (celsius * 9 / 5) + 32

/-- Modelled from the spec: the Country value of weather_report/countries.py,
which is not under src/.  Only the five fields read by the weather service
are modelled: name, capital, latitude, longitude, continent (the positional
constructor order used by the tests). -/
structure Country where
  name : String
  capital : String
  latitude : Rat
  longitude : Rat
  continent : String
  deriving DecidableEq, Repr

/-- The WeatherData dataclass of weather_service.py. -/
structure WeatherData where
  country : String
  capital : String
  continent : String
  temperature_celsius : Rat
  temperature_fahrenheit : Rat
  humidity : Int
  wind_speed_kmh : Rat
  condition : WeatherCondition
  weather_code : Int
  deriving DecidableEq, Repr

/-- The Python exceptions that can escape fetch_weather: the module exception
class WeatherServiceError, and the builtin KeyError, ValueError and TypeError
raised by subscripting and by the float and int coercions. -/
inductive PyExn where
  | weatherServiceError (msg : String)
  | keyError (key : String)
  | valueError (msg : String)
  | typeError (msg : String)
  deriving DecidableEq, Repr

/-- True exactly on a WeatherServiceError. -/
def PyExn.isWSE : PyExn → Bool
  | PyExn.weatherServiceError _ => true
  | _ => false

/-- A parsed JSON value, the possible results of response.json(). -/
inductive Json where
  | null
  | bool (b : Bool)
  | int (n : Int)
  | float (q : Rat)
  | str (s : String)
  | arr (elems : List Json)
  | obj (fields : List (String × Json))

/-- Value of a digit string read in base 10. -/
def digitsToNat (ds : List Char) : Nat :=
  ds.foldl (fun n c => n * 10 + (c.toNat - 48)) 0

/-- A nonempty run of decimal digits. -/
def allDigits (ds : List Char) : Bool :=
  !ds.isEmpty && ds.all Char.isDigit

/-- Unsigned decimal literal with an optional fractional part, the core of
the model of the Python float builtin on strings. -/
def parseUnsignedFloat (cs : List Char) : Option Rat :=
  let intPart := cs.takeWhile (fun c => c ≠ '.')
  let rest := cs.dropWhile (fun c => c ≠ '.')
  match rest with
  | [] => if allDigits intPart then some ((digitsToNat intPart : Int) : Rat) else none
  | _ :: frac =>
    if frac.any (fun c => c = '.') then none
    else if intPart.isEmpty && frac.isEmpty then none
    else if intPart.all Char.isDigit && frac.all Char.isDigit then
      some (((digitsToNat intPart : Int) : Rat) +
        ((digitsToNat frac : Int) : Rat) / ((10 : Rat) ^ frac.length))
    else none

/-- Model of float(s) for strings: optional sign then a decimal literal. -/
def parseFloatLit (s : String) : Option Rat :=
  match s.data with
  | '-' :: r => (parseUnsignedFloat r).map (fun q => -q)
  | '+' :: r => parseUnsignedFloat r
  | r => parseUnsignedFloat r

/-- Model of int(s) for strings: optional sign then digits. -/
def parseIntLit (s : String) : Option Int :=
  match s.data with
  | '-' :: r => if allDigits r then some (-(digitsToNat r : Int)) else none
  | '+' :: r => if allDigits r then some ((digitsToNat r : Int)) else none
  | r => if allDigits r then some ((digitsToNat r : Int)) else none

/-- Truncation toward zero, the behaviour of int() on a Python float. -/
def ratTrunc (q : Rat) : Int :=
  if 0 ≤ q.num then ((q.num.natAbs / q.den : Nat) : Int)
  else -((q.num.natAbs / q.den : Nat) : Int)

/-- Model of the Python float builtin on a JSON value: numbers and bools
coerce, numeric strings parse, anything else is a TypeError or ValueError. -/
def pyFloat : Json → Except PyExn Rat
  | Json.int n => Except.ok (n : Rat)
  | Json.float q => Except.ok q
  | Json.bool b => Except.ok (if b then 1 else 0)
  | Json.str s =>
    match parseFloatLit s with
    | some q => Except.ok q
    | none => Except.error (PyExn.valueError ("could not convert string to float: " ++ s))
  | Json.null => Except.error (PyExn.typeError "float argument must be a string or a real number, not NoneType")
  | Json.arr _ => Except.error (PyExn.typeError "float argument must be a string or a real number, not list")
  | Json.obj _ => Except.error (PyExn.typeError "float argument must be a string or a real number, not dict")

/-- Model of the Python int builtin on a JSON value. -/
def pyInt : Json → Except PyExn Int
  | Json.int n => Except.ok n
  | Json.float q => Except.ok (ratTrunc q)
  | Json.bool b => Except.ok (if b then 1 else 0)
  | Json.str s =>
    match parseIntLit s with
    | some n => Except.ok n
    | none => Except.error (PyExn.valueError ("invalid literal for int with base 10: " ++ s))
  | Json.null => Except.error (PyExn.typeError "int argument must be a string or a number, not NoneType")
  | Json.arr _ => Except.error (PyExn.typeError "int argument must be a string or a number, not list")
  | Json.obj _ => Except.error (PyExn.typeError "int argument must be a string or a number, not dict")

/-- Model of Python subscripting value[key] with a string key: a KeyError on
a dict without the key, a TypeError on any non-dict value. -/
def dictGet (j : Json) (key : String) : Except PyExn Json :=
  match j with
  | Json.obj fields =>
    match fields.lookup key with
    | some v => Except.ok v
    | none => Except.error (PyExn.keyError key)
  | _ => Except.error (PyExn.typeError "value is not subscriptable by a string key")

/-- The request that fetch_weather builds from a country: the fixed base URL,
the params dict of lines 88 to 92, and the timeout of line 95. -/
structure WeatherRequest where
  url : String
  latitude : Rat
  longitude : Rat
  current : String
  timeout : Nat
  deriving DecidableEq, Repr

/-- The observable outcome of the single requests.get call: a
requests.RequestException (connection error, timeout, or non-2xx status
turned into an HTTPError by raise_for_status), a body that response.json()
rejects with a ValueError, or a parsed JSON body. -/
inductive WeatherResponse where
  | transportError (cause : String)
  | invalidBody (cause : String)
  | body (data : Json)

def weather_request (country : Country) : WeatherRequest :=
  { url := OPEN_METEO_BASE_URL
    latitude := country.latitude
    longitude := country.longitude
    current := "temperature_2m,relative_humidity_2m,weather_code,wind_speed_10m"
    timeout := REQUEST_TIMEOUT }

/-- Lines 110, 111, 119 and 120 of weather_service.py: subscript the current
object and coerce, in Python evaluation order (temperature, weather code,
humidity, wind speed).  These lines are outside any try block, so their
exceptions escape as they are. -/
def parse_current (current : Json) : Except PyExn (Rat × Int × Int × Rat) :=
  match dictGet current "temperature_2m" with
  | Except.error e => Except.error e
  | Except.ok v =>
    match pyFloat v with
    | Except.error e => Except.error e
    | Except.ok temp_c =>
      match dictGet current "weather_code" with
      | Except.error e => Except.error e
      | Except.ok v2 =>
        match pyInt v2 with
        | Except.error e => Except.error e
        | Except.ok weather_code =>
          match dictGet current "relative_humidity_2m" with
          | Except.error e => Except.error e
          | Except.ok v3 =>
            match pyInt v3 with
            | Except.error e => Except.error e
            | Except.ok humidity =>
              match dictGet current "wind_speed_10m" with
              | Except.error e => Except.error e
              | Except.ok v4 =>
                match pyFloat v4 with
                | Except.error e => Except.error e
                | Except.ok wind => Except.ok (temp_c, weather_code, humidity, wind)

/-- Body of fetch_weather after the request is made.  A transport failure is
wrapped in WeatherServiceError with the country and capital names; the try
block of lines 102 to 108 wraps a ValueError from response.json() or a
KeyError from the current subscript, but nothing else, in
WeatherServiceError; the field extraction of parse_current runs outside any
try block, so its KeyError, ValueError or TypeError escapes unwrapped. -/
def fetch_weather_core (country : Country) (resp : WeatherResponse) :
    Except PyExn WeatherData :=
  match resp with
  | WeatherResponse.transportError cause =>
    Except.error (PyExn.weatherServiceError
      ("Failed to fetch weather for " ++ country.name ++ " (" ++ country.capital ++ "): " ++ cause))
  | WeatherResponse.invalidBody cause =>
    Except.error (PyExn.weatherServiceError
      ("Invalid response for " ++ country.name ++ " (" ++ country.capital ++ "): " ++ cause))
  | WeatherResponse.body data =>
    match dictGet data "current" with
    | Except.error (PyExn.keyError k) =>
      Except.error (PyExn.weatherServiceError
        ("Invalid response for " ++ country.name ++ " (" ++ country.capital ++ "): " ++ k))
    | Except.error e => Except.error e
    | Except.ok current =>
      match parse_current current with
      | Except.error e => Except.error e
      | Except.ok (temp_c, weather_code, humidity, wind) =>
        Except.ok
          { country := country.name
            capital := country.capital
            continent := country.continent
            temperature_celsius := temp_c
            temperature_fahrenheit := celsius_to_fahrenheit temp_c
            humidity := humidity
            wind_speed_kmh := wind
            condition := interpret_weather_code weather_code
            weather_code := weather_code }

/-- fetch_weather of weather_service.py.  The network is an oracle from the
constructed request to its outcome; the second component records the
requests issued, exactly one per invocation. -/
def fetch_weather (country : Country) (net : WeatherRequest → WeatherResponse) :
    Except PyExn WeatherData × List WeatherRequest :=
  (fetch_weather_core country (net (weather_request country)), [weather_request country])

/-- The loop of fetch_weather_batch: accumulate successes in order; a
WeatherServiceError is re-raised when on_error equals the string raise and
dropped otherwise; any other exception propagates out of the loop because
the except clause only catches WeatherServiceError. -/
def fetch_weather_batch_go (net : WeatherRequest → WeatherResponse) (on_error : String) :
    List Country → List WeatherData → List WeatherRequest →
    Except PyExn (List WeatherData) × List WeatherRequest
  | [], results, trace => (Except.ok results, trace)
  | country :: rest, results, trace =>
    match (fetch_weather country net).1 with
    | Except.ok weather =>
      fetch_weather_batch_go net on_error rest (results ++ [weather])
        (trace ++ (fetch_weather country net).2)
    | Except.error (PyExn.weatherServiceError msg) =>
      if on_error == "raise" then
        (Except.error (PyExn.weatherServiceError msg), trace ++ (fetch_weather country net).2)
      else
        fetch_weather_batch_go net on_error rest results (trace ++ (fetch_weather country net).2)
    | Except.error e => (Except.error e, trace ++ (fetch_weather country net).2)

/-- fetch_weather_batch of weather_service.py (the Python default for
on_error is the string skip). -/
def fetch_weather_batch (countries : List Country) (on_error : String)
    (net : WeatherRequest → WeatherResponse) :
    Except PyExn (List WeatherData) × List WeatherRequest :=
  fetch_weather_batch_go net on_error countries [] []

deriving instance DecidableEq for Except

/-- The dict returned by find_extremes in report.py: four optional entries. -/
structure WeatherExtremes where
  hottest : Option WeatherData
  coldest : Option WeatherData
  most_humid : Option WeatherData
  windiest : Option WeatherData
  deriving DecidableEq, Repr

/-- Python max(iterable, key=k) on a list: scan left to right and replace the
running best exactly when the new key is strictly greater, so the first
maximal element is kept; none only on an empty list. -/
def pyMax {β : Type} [LinearOrder β] (key : WeatherData → β) :
    List WeatherData → Option WeatherData
  | [] => none
  | x :: xs => some (xs.foldl (fun best y => if key best < key y then y else best) x)

/-- Python min(iterable, key=k), dually. -/
def pyMin {β : Type} [LinearOrder β] (key : WeatherData → β) :
    List WeatherData → Option WeatherData
  | [] => none
  | x :: xs => some (xs.foldl (fun best y => if key y < key best then y else best) x)

/-- find_extremes of report.py. -/
def find_extremes (weather_list : List WeatherData) : WeatherExtremes :=
  if weather_list.isEmpty then
    { hottest := none, coldest := none, most_humid := none, windiest := none }
  else
    { hottest := pyMax (fun w => w.temperature_celsius) weather_list
      coldest := pyMin (fun w => w.temperature_celsius) weather_list
      most_humid := pyMax (fun w => w.humidity) weather_list
      windiest := pyMax (fun w => w.wind_speed_kmh) weather_list }

/-- True when a fetch outcome is a success or a WeatherServiceError, the two
outcomes the batch loop handles itself. -/
def okOrWSE (r : Except PyExn WeatherData) : Bool :=
  match r with
  | Except.ok _ => true
  | Except.error (PyExn.weatherServiceError _) => true
  | _ => false

section Fixtures

/-- A sample country, after the fixture of the repository tests. -/
def testLand : Country :=
  { name := "TestLand", capital := "TestCity", latitude := 10, longitude := 20
    continent := "TestContinent" }

/-- A second sample country. -/
def otherLand : Country :=
  { name := "OtherLand", capital := "OtherCity", latitude := 1, longitude := 2
    continent := "OtherContinent" }

/-- A third sample country. -/
def thirdLand : Country :=
  { name := "ThirdLand", capital := "ThirdCity", latitude := 3, longitude := 4
    continent := "ThirdContinent" }

/-- A well-formed provider body. -/
def goodBody : Json :=
  Json.obj [("current", Json.obj
    [("temperature_2m", Json.float 25),
     ("relative_humidity_2m", Json.int 60),
     ("weather_code", Json.int 0),
     ("wind_speed_10m", Json.float (31 / 2))])]

/-- A body whose current object is present but empty: subscripting it raises
KeyError for temperature_2m. -/
def emptyCurrentBody : Json :=
  Json.obj [("current", Json.obj [])]

/-- A network oracle that always returns the well-formed body. -/
def goodNet : WeatherRequest → WeatherResponse :=
  fun _ => WeatherResponse.body goodBody

/-- A network oracle that always fails at transport level. -/
def failNet : WeatherRequest → WeatherResponse :=
  fun _ => WeatherResponse.transportError "boom"

/-- A network oracle that succeeds for otherLand (latitude 1) and fails at
transport level for everything else. -/
def mixedNet : WeatherRequest → WeatherResponse :=
  fun req =>
    if req.latitude == 1 then WeatherResponse.body goodBody
    else WeatherResponse.transportError "boom"

/-- A network oracle returning a body with an empty current object. -/
def emptyCurrentNet : WeatherRequest → WeatherResponse :=
  fun _ => WeatherResponse.body emptyCurrentBody

/-- A sample reading. -/
def readingA : WeatherData :=
  { country := "A", capital := "a", continent := "X"
    temperature_celsius := 25, temperature_fahrenheit := 77
    humidity := 60, wind_speed_kmh := 10
    condition := WeatherCondition.clear, weather_code := 0 }

/-- A second sample reading, hotter, more humid and windier. -/
def readingB : WeatherData :=
  { country := "B", capital := "b", continent := "Y"
    temperature_celsius := 30, temperature_fahrenheit := 86
    humidity := 80, wind_speed_kmh := 20
    condition := WeatherCondition.rain, weather_code := 63 }

end Fixtures

/-- Lookup misses every key it is not bound to. -/
theorem lookup_eq_none_of_not_mem_keys {α β : Type} [BEq α] [LawfulBEq α] :
    ∀ (l : List (α × β)) (a : α), a ∉ l.map Prod.fst → l.lookup a = none
  | [], _, _ => rfl
  | (k, b) :: rest, a, h => by
    simp only [List.map_cons, List.mem_cons, not_or] at h
    have hne : (a == k) = false := beq_eq_false_iff_ne.mpr h.1
    simp only [List.lookup, hne]
    exact lookup_eq_none_of_not_mem_keys rest a h.2

/-- Any successful fetch result carries a Fahrenheit field computed from its
Celsius field. -/
theorem fetch_core_ok_fahrenheit (country : Country) (resp : WeatherResponse)
    (w : WeatherData) (h : fetch_weather_core country resp = Except.ok w) :
    w.temperature_fahrenheit = celsius_to_fahrenheit w.temperature_celsius := by
  unfold fetch_weather_core at h
  repeat' split at h
  all_goals try exact Except.noConfusion h
  injection h with h
  subst h
  rfl

/-- C4: interpret_weather_code is total and deterministic, maps the listed
codes to the listed conditions, and maps every other integer code, negative
codes included, to Unknown without error. -/
theorem interpret_weather_code_matches_table :
    (∀ c ∈ ([0, 1] : List Int), interpret_weather_code c = WeatherCondition.clear) ∧
    interpret_weather_code 2 = WeatherCondition.partlyCloudy ∧
    interpret_weather_code 3 = WeatherCondition.overcast ∧
    (∀ c ∈ ([45, 48] : List Int), interpret_weather_code c = WeatherCondition.fog) ∧
    (∀ c ∈ ([51, 53, 55, 56, 57] : List Int), interpret_weather_code c = WeatherCondition.drizzle) ∧
    (∀ c ∈ ([61, 63, 65, 66, 67, 80, 81, 82] : List Int), interpret_weather_code c = WeatherCondition.rain) ∧
    (∀ c ∈ ([71, 73, 75, 77, 85, 86] : List Int), interpret_weather_code c = WeatherCondition.snow) ∧
    (∀ c ∈ ([95, 96, 99] : List Int), interpret_weather_code c = WeatherCondition.thunderstorm) ∧
    (∀ c : Int,
      c ∉ ([0, 1, 2, 3, 45, 48, 51, 53, 55, 56, 57, 61, 63, 65, 66, 67, 71, 73, 75, 77, 80, 81, 82, 85, 86, 95, 96, 99] : List Int) →
      interpret_weather_code c = WeatherCondition.unknown) := by
  refine ⟨by decide, by decide, by decide, by decide, by decide, by decide, by decide,
    by decide, ?_⟩
  intro c hc
  have hkeys : WMO_CODE_MAP.map Prod.fst =
      ([0, 1, 2, 3, 45, 48, 51, 53, 55, 56, 57, 61, 63, 65, 66, 67, 71, 73, 75, 77, 80, 81, 82, 85, 86, 95, 96, 99] : List Int) := by
    decide
  have hnone : WMO_CODE_MAP.lookup c = none :=
    lookup_eq_none_of_not_mem_keys WMO_CODE_MAP c (by rw [hkeys]; exact hc)
  simp [interpret_weather_code, hnone]

/-- Witness for C4 at the concrete codes 53 and -7. -/
theorem interpret_weather_code_matches_table_witness :
    interpret_weather_code 53 = WeatherCondition.drizzle ∧
    interpret_weather_code (-7) = WeatherCondition.unknown :=
  ⟨interpret_weather_code_matches_table.2.2.2.2.1 53 (by decide),
   interpret_weather_code_matches_table.2.2.2.2.2.2.2.2 (-7) (by decide)⟩

/-- C5: the conversion formula is exactly c times 9 over 5 plus 32, with the
stated sample points, and every WeatherData returned by fetch_weather has its
Fahrenheit field derived from its Celsius field by that formula. -/
theorem celsius_to_fahrenheit_spec :
    (∀ c : Rat, celsius_to_fahrenheit c = c * 9 / 5 + 32) ∧
    celsius_to_fahrenheit 0 = 32 ∧
    celsius_to_fahrenheit 100 = 212 ∧
    celsius_to_fahrenheit (-40) = -40 ∧
    (∀ (country : Country) (net : WeatherRequest → WeatherResponse) (w : WeatherData),
      (fetch_weather country net).1 = Except.ok w →
      w.temperature_fahrenheit = celsius_to_fahrenheit w.temperature_celsius) := by
  refine ⟨fun c => rfl, by norm_num [celsius_to_fahrenheit],
    by norm_num [celsius_to_fahrenheit], by norm_num [celsius_to_fahrenheit], ?_⟩
  intro country net w h
  exact fetch_core_ok_fahrenheit country (net (weather_request country)) w h

/-- Witness for C5 at a concrete successful fetch. -/
theorem celsius_to_fahrenheit_spec_witness :
    (fetch_weather testLand goodNet).1 = Except.ok
      { country := "TestLand", capital := "TestCity", continent := "TestContinent"
        temperature_celsius := 25, temperature_fahrenheit := 77
        humidity := 60, wind_speed_kmh := 31 / 2
        condition := WeatherCondition.clear, weather_code := 0 } ∧
    WeatherData.temperature_fahrenheit
      { country := "TestLand", capital := "TestCity", continent := "TestContinent"
        temperature_celsius := 25, temperature_fahrenheit := 77
        humidity := 60, wind_speed_kmh := 31 / 2
        condition := WeatherCondition.clear, weather_code := 0 } =
      celsius_to_fahrenheit
        (WeatherData.temperature_celsius
          { country := "TestLand", capital := "TestCity", continent := "TestContinent"
            temperature_celsius := 25, temperature_fahrenheit := 77
            humidity := 60, wind_speed_kmh := 31 / 2
            condition := WeatherCondition.clear, weather_code := 0 }) := by
  have hev : (fetch_weather testLand goodNet).1 = Except.ok
      { country := "TestLand", capital := "TestCity", continent := "TestContinent"
        temperature_celsius := 25, temperature_fahrenheit := 77
        humidity := 60, wind_speed_kmh := 31 / 2
        condition := WeatherCondition.clear, weather_code := 0 } := by
    simp [fetch_weather, fetch_weather_core, weather_request, goodNet, goodBody,
      parse_current, dictGet, pyFloat, pyInt, List.lookup, celsius_to_fahrenheit,
      interpret_weather_code, WMO_CODE_MAP, testLand]
    norm_num
  exact ⟨hev, celsius_to_fahrenheit_spec.2.2.2.2 testLand goodNet _ hev⟩

/-- C6: an empty batch returns the empty list under every policy and issues
no network request. -/
theorem fetch_weather_batch_empty :
    ∀ (on_error : String) (net : WeatherRequest → WeatherResponse),
      fetch_weather_batch [] on_error net = (Except.ok [], []) :=
  fun _ _ => rfl

/-- C7: on a transport failure (connection error, timeout or non-2xx status)
or an unparseable body, the WeatherServiceError message is built from the
country name, the capital name and the underlying cause, so it contains all
three. -/
theorem fetch_weather_error_message_names_location :
    ∀ (country : Country) (cause : String),
      (fetch_weather country (fun _ => WeatherResponse.transportError cause)).1 =
        Except.error (PyExn.weatherServiceError
          ("Failed to fetch weather for " ++ country.name ++ " (" ++ country.capital ++ "): " ++ cause)) ∧
      (fetch_weather country (fun _ => WeatherResponse.invalidBody cause)).1 =
        Except.error (PyExn.weatherServiceError
          ("Invalid response for " ++ country.name ++ " (" ++ country.capital ++ "): " ++ cause)) :=
  fun _ _ => ⟨rfl, rfl⟩

/-- C8: every invocation of fetch_weather issues exactly one request, to the
fixed base URL, with the coordinates of the country, the fixed comma-joined
field list, and the 10 second timeout. -/
theorem fetch_weather_single_request :
    REQUEST_TIMEOUT = 10 ∧
    ∀ (country : Country) (net : WeatherRequest → WeatherResponse),
      (fetch_weather country net).2 =
        [{ url := OPEN_METEO_BASE_URL
           latitude := country.latitude
           longitude := country.longitude
           current := "temperature_2m,relative_humidity_2m,weather_code,wind_speed_10m"
           timeout := REQUEST_TIMEOUT }] :=
  ⟨rfl, fun _ _ => rfl⟩

/-- The batch loop never reads the policy string except to compare it with
the string raise, so any other policy behaves as skip. -/
theorem batch_go_policy_eq_skip (net : WeatherRequest → WeatherResponse) (s : String)
    (hs : (s == "raise") = false) :
    ∀ (countries : List Country) (results : List WeatherData) (trace : List WeatherRequest),
      fetch_weather_batch_go net s countries results trace =
        fetch_weather_batch_go net "skip" countries results trace
  | [], _, _ => rfl
  | c :: rest, results, trace => by
    unfold fetch_weather_batch_go
    cases hr : (fetch_weather c net).1 with
    | ok w =>
      simp only [hr]
      exact batch_go_policy_eq_skip net s hs rest (results ++ [w]) _
    | error e =>
      cases e with
      | weatherServiceError m =>
        have h2 : ("skip" == "raise") = false := rfl
        simp only [hr, hs, h2, Bool.false_eq_true, if_false]
        exact batch_go_policy_eq_skip net s hs rest results _
      | keyError k => simp only [hr]
      | valueError m => simp only [hr]
      | typeError m => simp only [hr]

/-- C9: the policy argument is never validated; every policy string other
than raise, including RAISE, Skip and the empty string, makes
fetch_weather_batch behave exactly as skip. -/
theorem fetch_weather_batch_policy_not_validated
    (on_error : String) (h : on_error ≠ "raise")
    (countries : List Country) (net : WeatherRequest → WeatherResponse) :
    fetch_weather_batch countries on_error net = fetch_weather_batch countries "skip" net :=
  batch_go_policy_eq_skip net on_error (beq_eq_false_iff_ne.mpr h) countries [] []

/-- Witness for C9 at the concrete policy RAISE. -/
theorem fetch_weather_batch_policy_not_validated_witness :
    "RAISE" ≠ "raise" ∧
    fetch_weather_batch [testLand] "RAISE" failNet =
      fetch_weather_batch [testLand] "skip" failNet :=
  ⟨by decide, fetch_weather_batch_policy_not_validated "RAISE" (by decide) [testLand] failNet⟩

/-- The skip loop keeps exactly the successful readings, in input order, and
issues one request per country, as long as every failure is a
WeatherServiceError. -/
theorem batch_go_skip_filterMap (net : WeatherRequest → WeatherResponse) :
    ∀ (countries : List Country) (results : List WeatherData) (trace : List WeatherRequest),
      (∀ c ∈ countries, okOrWSE (fetch_weather c net).1 = true) →
      fetch_weather_batch_go net "skip" countries results trace =
        (Except.ok (results ++ countries.filterMap (fun c => ((fetch_weather c net).1).toOption)),
         trace ++ countries.map weather_request)
  | [], results, trace, _ => by simp [fetch_weather_batch_go]
  | c :: rest, results, trace, h => by
    have hc := h c (List.mem_cons_self c rest)
    have hrest := fun x hx => h x (List.mem_cons_of_mem c hx)
    unfold fetch_weather_batch_go
    cases hr : (fetch_weather c net).1 with
    | ok w =>
      simp only [hr]
      rw [batch_go_skip_filterMap net rest (results ++ [w])
        (trace ++ (fetch_weather c net).2) hrest]
      have hfc : ((fetch_weather c net).1).toOption = some w := by rw [hr]; rfl
      simp only [List.filterMap_cons, List.map_cons, hfc]
      simp [fetch_weather]
    | error e =>
      cases e with
      | weatherServiceError m =>
        have h2 : ("skip" == "raise") = false := rfl
        simp only [hr, h2, Bool.false_eq_true, if_false]
        rw [batch_go_skip_filterMap net rest results
          (trace ++ (fetch_weather c net).2) hrest]
        have hfc : ((fetch_weather c net).1).toOption = none := by rw [hr]; rfl
        simp only [List.filterMap_cons, List.map_cons, hfc]
        simp [fetch_weather]
      | keyError k => simp [okOrWSE, hr] at hc
      | valueError m => simp [okOrWSE, hr] at hc
      | typeError m => simp [okOrWSE, hr] at hc

/-- C1 amended: under the skip policy the batch returns exactly the readings
of the countries whose fetch succeeds, in input order, each country whose
fetch fails with WeatherServiceError contributing nothing, provided every
failure is a WeatherServiceError; an exception of any other class escapes
the loop (see the counterexample). -/
theorem fetch_weather_batch_skip_collects_successes
    (countries : List Country) (net : WeatherRequest → WeatherResponse)
    (h : ∀ c ∈ countries, okOrWSE (fetch_weather c net).1 = true) :
    (fetch_weather_batch countries "skip" net).1 =
      Except.ok (countries.filterMap (fun c => ((fetch_weather c net).1).toOption)) := by
  unfold fetch_weather_batch
  rw [batch_go_skip_filterMap net countries [] [] h]
  simp

/-- C1 counterexample: with a provider body whose current object is an empty
dict, the per-country failure is a KeyError, the skip policy does not catch
it, and the batch call itself raises instead of returning a list. -/
theorem fetch_weather_batch_skip_can_raise :
    (fetch_weather_batch [testLand] "skip" emptyCurrentNet).1 =
      Except.error (PyExn.keyError "temperature_2m") ∧
    PyExn.isWSE (PyExn.keyError "temperature_2m") = false := by
  exact ⟨by decide, rfl⟩

/-- Witness for the amended C1: one success then one WeatherServiceError
failure under skip yields exactly the single successful reading. -/
theorem fetch_weather_batch_skip_collects_successes_witness :
    okOrWSE (fetch_weather otherLand mixedNet).1 = true ∧
    okOrWSE (fetch_weather testLand mixedNet).1 = true ∧
    (fetch_weather_batch [otherLand, testLand] "skip" mixedNet).1 =
      Except.ok ([otherLand, testLand].filterMap
        (fun c => ((fetch_weather c mixedNet).1).toOption)) :=
  ⟨by decide, by decide,
   fetch_weather_batch_skip_collects_successes [otherLand, testLand] mixedNet (by decide)⟩

/-- Under the raise policy, the loop stops at the first country failing with
a WeatherServiceError, returns that very error, and has issued requests only
for the countries up to and including the failing one. -/
theorem batch_go_raise_aborts (net : WeatherRequest → WeatherResponse) :
    ∀ (pre : List Country) (c : Country) (post : List Country) (msg : String)
      (results : List WeatherData) (trace : List WeatherRequest),
      (∀ p ∈ pre, ((fetch_weather p net).1).isOk = true) →
      (fetch_weather c net).1 = Except.error (PyExn.weatherServiceError msg) →
      fetch_weather_batch_go net "raise" (pre ++ c :: post) results trace =
        (Except.error (PyExn.weatherServiceError msg),
         trace ++ (pre ++ [c]).map weather_request)
  | [], c, post, msg, results, trace, _, hc => by
    simp only [List.nil_append]
    unfold fetch_weather_batch_go
    have h2 : ("raise" == "raise") = true := rfl
    simp only [hc, h2, if_true]
    simp [fetch_weather]
  | p :: rest, c, post, msg, results, trace, hpre, hc => by
    have hp := hpre p (List.mem_cons_self p rest)
    obtain ⟨w, hw⟩ : ∃ w, (fetch_weather p net).1 = Except.ok w := by
      cases hq : (fetch_weather p net).1 with
      | ok w => exact ⟨w, rfl⟩
      | error e => rw [hq] at hp; exact absurd hp (by simp [Except.isOk, Except.toBool])
    simp only [List.cons_append]
    unfold fetch_weather_batch_go
    simp only [hw]
    rw [batch_go_raise_aborts net rest c post msg (results ++ [w])
      (trace ++ (fetch_weather p net).2)
      (fun x hx => hpre x (List.mem_cons_of_mem p hx)) hc]
    simp [fetch_weather]

/-- C2: under the raise policy, if the countries before some failing country
all succeed and that country fails with a WeatherServiceError, the batch
propagates that same error unchanged, performs no fetch for any later
country (the request trace stops at the failing country), and yields no
partial result list. -/
theorem fetch_weather_batch_raise_aborts
    (pre post : List Country) (c : Country) (msg : String)
    (net : WeatherRequest → WeatherResponse)
    (hpre : ∀ p ∈ pre, ((fetch_weather p net).1).isOk = true)
    (hc : (fetch_weather c net).1 = Except.error (PyExn.weatherServiceError msg)) :
    fetch_weather_batch (pre ++ c :: post) "raise" net =
      (Except.error (PyExn.weatherServiceError msg),
       (pre ++ [c]).map weather_request) := by
  unfold fetch_weather_batch
  rw [batch_go_raise_aborts net pre c post msg [] [] hpre hc]
  simp

/-- Witness for C2: a success, then a transport failure, then a country that
is never fetched. -/
theorem fetch_weather_batch_raise_aborts_witness :
    ((fetch_weather otherLand mixedNet).1).isOk = true ∧
    (fetch_weather testLand mixedNet).1 = Except.error (PyExn.weatherServiceError
      "Failed to fetch weather for TestLand (TestCity): boom") ∧
    fetch_weather_batch [otherLand, testLand, thirdLand] "raise" mixedNet =
      (Except.error (PyExn.weatherServiceError
        "Failed to fetch weather for TestLand (TestCity): boom"),
       [weather_request otherLand, weather_request testLand]) := by
  refine ⟨by decide, by decide, ?_⟩
  have happ := fetch_weather_batch_raise_aborts [otherLand] [thirdLand] testLand
    "Failed to fetch weather for TestLand (TestCity): boom" mixedNet
    (by decide) (by decide)
  simpa using happ

/-- Subscripting never raises WeatherServiceError. -/
theorem dictGet_error_not_wse (j : Json) (k : String) (e : PyExn)
    (h : dictGet j k = Except.error e) : e.isWSE = false := by
  unfold dictGet at h
  repeat' split at h
  all_goals first
    | exact Except.noConfusion h
    | (injection h with h; subst h; rfl)

/-- The float coercion never raises WeatherServiceError. -/
theorem pyFloat_error_not_wse (v : Json) (e : PyExn)
    (h : pyFloat v = Except.error e) : e.isWSE = false := by
  unfold pyFloat at h
  repeat' split at h
  all_goals first
    | exact Except.noConfusion h
    | (injection h with h; subst h; rfl)

/-- The int coercion never raises WeatherServiceError. -/
theorem pyInt_error_not_wse (v : Json) (e : PyExn)
    (h : pyInt v = Except.error e) : e.isWSE = false := by
  unfold pyInt at h
  repeat' split at h
  all_goals first
    | exact Except.noConfusion h
    | (injection h with h; subst h; rfl)

/-- Extraction of the four numeric fields never raises WeatherServiceError:
its exceptions are the builtin KeyError, ValueError and TypeError. -/
theorem parse_current_error_not_wse (cur : Json) (e : PyExn)
    (h : parse_current cur = Except.error e) : e.isWSE = false := by
  unfold parse_current at h
  repeat' split at h
  all_goals first
    | exact Except.noConfusion h
    | (injection h with h; subst h;
       first
         | exact dictGet_error_not_wse _ _ _ (by assumption)
         | exact pyFloat_error_not_wse _ _ (by assumption)
         | exact pyInt_error_not_wse _ _ (by assumption))

/-- C3 counterexample: a response whose current object lacks the temperature
field makes fetch_weather fail with the builtin KeyError, which is not a
WeatherServiceError. -/
theorem fetch_weather_missing_field_not_wse :
    (fetch_weather testLand emptyCurrentNet).1 =
      Except.error (PyExn.keyError "temperature_2m") ∧
    PyExn.isWSE (PyExn.keyError "temperature_2m") = false :=
  ⟨by decide, rfl⟩

/-- C3 amended: an unparseable body and a top level object without the
current key are wrapped in WeatherServiceError, but an error raised while
subscripting the current object or coercing one of its values, a KeyError,
ValueError or TypeError, propagates out of fetch_weather unchanged and is
never a WeatherServiceError. -/
theorem fetch_weather_parse_error_classification :
    (∀ (country : Country) (cause : String),
      (fetch_weather country (fun _ => WeatherResponse.invalidBody cause)).1 =
        Except.error (PyExn.weatherServiceError
          ("Invalid response for " ++ country.name ++ " (" ++ country.capital ++ "): " ++ cause))) ∧
    (∀ (country : Country) (fields : List (String × Json)),
      fields.lookup "current" = none →
      (fetch_weather country (fun _ => WeatherResponse.body (Json.obj fields))).1 =
        Except.error (PyExn.weatherServiceError
          ("Invalid response for " ++ country.name ++ " (" ++ country.capital ++ "): " ++ "current"))) ∧
    (∀ (country : Country) (cur : Json) (e : PyExn),
      parse_current cur = Except.error e →
      (fetch_weather country (fun _ => WeatherResponse.body (Json.obj [("current", cur)]))).1 =
        Except.error e ∧ e.isWSE = false) := by
  refine ⟨fun _ _ => rfl, ?_, ?_⟩
  · intro country fields h
    simp [fetch_weather, fetch_weather_core, dictGet, h]
  · intro country cur e h
    refine ⟨?_, parse_current_error_not_wse cur e h⟩
    simp [fetch_weather, fetch_weather_core, dictGet, List.lookup, h]

/-- Witness for the amended C3 at an empty current object. -/
theorem fetch_weather_parse_error_classification_witness :
    parse_current (Json.obj []) = Except.error (PyExn.keyError "temperature_2m") ∧
    (fetch_weather testLand
      (fun _ => WeatherResponse.body (Json.obj [("current", Json.obj [])]))).1 =
      Except.error (PyExn.keyError "temperature_2m") ∧
    PyExn.isWSE (PyExn.keyError "temperature_2m") = false := by
  have hp : parse_current (Json.obj []) = Except.error (PyExn.keyError "temperature_2m") := by
    decide
  obtain ⟨h1, h2⟩ :=
    fetch_weather_parse_error_classification.2.2 testLand (Json.obj [])
      (PyExn.keyError "temperature_2m") hp
  exact ⟨hp, h1, h2⟩

/-- The max scan stays inside the scanned elements and bounds all of them. -/
theorem foldl_pyMax_spec {β : Type} [LinearOrder β] (key : WeatherData → β) :
    ∀ (xs : List WeatherData) (x : WeatherData),
      xs.foldl (fun best y => if key best < key y then y else best) x ∈ x :: xs ∧
      key x ≤ key (xs.foldl (fun best y => if key best < key y then y else best) x) ∧
      ∀ y ∈ xs, key y ≤ key (xs.foldl (fun best y => if key best < key y then y else best) x)
  | [], x => ⟨List.mem_singleton.mpr rfl, le_refl _, by simp⟩
  | z :: rest, x => by
    obtain ⟨hmem, hge, hub⟩ := foldl_pyMax_spec key rest (if key x < key z then z else x)
    simp only [List.foldl_cons]
    refine ⟨?_, ?_, ?_⟩
    · rcases List.mem_cons.mp hmem with hcase | hcase
      · rw [hcase]
        by_cases hlt : key x < key z
        · rw [if_pos hlt]
          exact List.mem_cons_of_mem x (List.mem_cons_self z rest)
        · rw [if_neg hlt]
          exact List.mem_cons_self x (z :: rest)
      · exact List.mem_cons_of_mem x (List.mem_cons_of_mem z hcase)
    · by_cases hlt : key x < key z
      · rw [if_pos hlt] at hge ⊢
        exact le_trans (le_of_lt hlt) hge
      · rw [if_neg hlt] at hge ⊢
        exact hge
    · intro y hy
      rcases List.mem_cons.mp hy with hy | hy
      · rw [hy]
        by_cases hlt : key x < key z
        · rw [if_pos hlt] at hge ⊢
          exact hge
        · rw [if_neg hlt] at hge ⊢
          exact le_trans (le_of_not_lt hlt) hge
      · exact hub y hy

/-- The min scan, dually. -/
theorem foldl_pyMin_spec {β : Type} [LinearOrder β] (key : WeatherData → β) :
    ∀ (xs : List WeatherData) (x : WeatherData),
      xs.foldl (fun best y => if key y < key best then y else best) x ∈ x :: xs ∧
      key (xs.foldl (fun best y => if key y < key best then y else best) x) ≤ key x ∧
      ∀ y ∈ xs, key (xs.foldl (fun best y => if key y < key best then y else best) x) ≤ key y
  | [], x => ⟨List.mem_singleton.mpr rfl, le_refl _, by simp⟩
  | z :: rest, x => by
    obtain ⟨hmem, hle, hlb⟩ := foldl_pyMin_spec key rest (if key z < key x then z else x)
    simp only [List.foldl_cons]
    refine ⟨?_, ?_, ?_⟩
    · rcases List.mem_cons.mp hmem with hcase | hcase
      · rw [hcase]
        by_cases hlt : key z < key x
        · rw [if_pos hlt]
          exact List.mem_cons_of_mem x (List.mem_cons_self z rest)
        · rw [if_neg hlt]
          exact List.mem_cons_self x (z :: rest)
      · exact List.mem_cons_of_mem x (List.mem_cons_of_mem z hcase)
    · by_cases hlt : key z < key x
      · rw [if_pos hlt] at hle ⊢
        exact le_trans hle (le_of_lt hlt)
      · rw [if_neg hlt] at hle ⊢
        exact hle
    · intro y hy
      rcases List.mem_cons.mp hy with hy | hy
      · rw [hy]
        by_cases hlt : key z < key x
        · rw [if_pos hlt] at hle ⊢
          exact hle
        · rw [if_neg hlt] at hle ⊢
          exact le_trans hle (le_of_not_lt hlt)
      · exact hlb y hy

/-- On a nonempty list, pyMax returns an element attaining the maximal key. -/
theorem pyMax_spec {β : Type} [LinearOrder β] (key : WeatherData → β)
    (l : List WeatherData) (hl : l ≠ []) :
    ∃ m, pyMax key l = some m ∧ m ∈ l ∧ ∀ y ∈ l, key y ≤ key m := by
  cases l with
  | nil => exact absurd rfl hl
  | cons x xs =>
    obtain ⟨hmem, hge, hub⟩ := foldl_pyMax_spec key xs x
    refine ⟨_, rfl, hmem, ?_⟩
    intro y hy
    rcases List.mem_cons.mp hy with hy | hy
    · subst hy; exact hge
    · exact hub y hy

/-- On a nonempty list, pyMin returns an element attaining the minimal key. -/
theorem pyMin_spec {β : Type} [LinearOrder β] (key : WeatherData → β)
    (l : List WeatherData) (hl : l ≠ []) :
    ∃ m, pyMin key l = some m ∧ m ∈ l ∧ ∀ y ∈ l, key m ≤ key y := by
  cases l with
  | nil => exact absurd rfl hl
  | cons x xs =>
    obtain ⟨hmem, hle, hlb⟩ := foldl_pyMin_spec key xs x
    refine ⟨_, rfl, hmem, ?_⟩
    intro y hy
    rcases List.mem_cons.mp hy with hy | hy
    · subst hy; exact hle
    · exact hlb y hy

/-- C10: on a nonempty list find_extremes returns, for each of the four
keys, an element of the list attaining the maximal temperature, the minimal
temperature, the maximal humidity and the maximal wind speed respectively;
on the empty list it returns the four keys each mapped to none and does not
fail. -/
theorem find_extremes_spec :
    find_extremes [] =
      { hottest := none, coldest := none, most_humid := none, windiest := none } ∧
    ∀ (l : List WeatherData), l ≠ [] →
      (∃ h, (find_extremes l).hottest = some h ∧ h ∈ l ∧
        ∀ y ∈ l, y.temperature_celsius ≤ h.temperature_celsius) ∧
      (∃ c, (find_extremes l).coldest = some c ∧ c ∈ l ∧
        ∀ y ∈ l, c.temperature_celsius ≤ y.temperature_celsius) ∧
      (∃ m, (find_extremes l).most_humid = some m ∧ m ∈ l ∧
        ∀ y ∈ l, y.humidity ≤ m.humidity) ∧
      (∃ w, (find_extremes l).windiest = some w ∧ w ∈ l ∧
        ∀ y ∈ l, y.wind_speed_kmh ≤ w.wind_speed_kmh) := by
  refine ⟨rfl, ?_⟩
  intro l hl
  have hne : l.isEmpty = false := by
    cases l with
    | nil => exact absurd rfl hl
    | cons x xs => rfl
  have h1 : (find_extremes l).hottest = pyMax (fun w => w.temperature_celsius) l := by
    simp [find_extremes, hne]
  have h2 : (find_extremes l).coldest = pyMin (fun w => w.temperature_celsius) l := by
    simp [find_extremes, hne]
  have h3 : (find_extremes l).most_humid = pyMax (fun w => w.humidity) l := by
    simp [find_extremes, hne]
  have h4 : (find_extremes l).windiest = pyMax (fun w => w.wind_speed_kmh) l := by
    simp [find_extremes, hne]
  refine ⟨?_, ?_, ?_, ?_⟩
  · obtain ⟨m, hm, hmem, hub⟩ := pyMax_spec (fun w => w.temperature_celsius) l hl
    exact ⟨m, by rw [h1, hm], hmem, hub⟩
  · obtain ⟨m, hm, hmem, hlb⟩ := pyMin_spec (fun w => w.temperature_celsius) l hl
    exact ⟨m, by rw [h2, hm], hmem, hlb⟩
  · obtain ⟨m, hm, hmem, hub⟩ := pyMax_spec (fun w => w.humidity) l hl
    exact ⟨m, by rw [h3, hm], hmem, hub⟩
  · obtain ⟨m, hm, hmem, hub⟩ := pyMax_spec (fun w => w.wind_speed_kmh) l hl
    exact ⟨m, by rw [h4, hm], hmem, hub⟩

/-- Witness for C10 on a concrete two-element list. -/
theorem find_extremes_spec_witness :
    [readingA, readingB] ≠ ([] : List WeatherData) ∧
    (∃ h, (find_extremes [readingA, readingB]).hottest = some h ∧
      h ∈ [readingA, readingB] ∧
      ∀ y ∈ [readingA, readingB], y.temperature_celsius ≤ h.temperature_celsius) ∧
    (∃ c, (find_extremes [readingA, readingB]).coldest = some c ∧
      c ∈ [readingA, readingB] ∧
      ∀ y ∈ [readingA, readingB], c.temperature_celsius ≤ y.temperature_celsius) :=
  ⟨by decide,
   (find_extremes_spec.2 [readingA, readingB] (by decide)).1,
   (find_extremes_spec.2 [readingA, readingB] (by decide)).2.1⟩

end WeatherReport
